import Mathlib

/-!
# WellPath goal-tracking core: shallow embedding and verification

This file embeds the goal/progress computation layer of the WellPath
repository (Django app `goals`: `models.py`, `services.py`, `views.py`)
and proves properties of it.

Modelling conventions:
* Dates are integers (`ℤ`), counting days; `today` / `now` is always an
  explicit parameter (the code reads `now().date()` from an ambient clock).
* Python floats are embedded as rationals (`ℚ`); all arithmetic in the
  embedded functions is exact on the inputs the claims use.
* A Django model row becomes a Lean structure.  `Goal.current_value` is a
  non-nullable `FloatField(default=0)` on the model (`models.py` line 78),
  so every `Goal` instance carries the attribute and it is never `None`;
  this is reflected by the functions `goal_has_current_value_attr` and
  `goal_current_value_is_none` below (see `goal_get_status`).
* The related set `goal.progresses.all()` is embedded as a list of rows
  carried on the `Goal` structure; the standalone `Progress` table used by
  `progress_create_or_update` is a plain list of rows.
-/

/-- A row of the `Progress` table (`models.py`, class `Progress`):
foreign keys `user` and `goal`, a float `value` and a `date`. -/
structure ProgressRow where
  user : ℕ
  goalId : ℕ
  date : ℤ
  value : ℚ
deriving DecidableEq, Repr

/-- A row of the `Goal` table (`models.py`, class `Goal`), restricted to the
fields the computation layer reads.  `currentValue` is the stored
`current_value = models.FloatField(default=0)` column; `progresses` is the
reverse relation `goal.progresses.all()`. -/
structure Goal where
  id : ℕ
  user : ℕ
  targetValue : ℚ
  currentValue : ℚ
  deadline : Option ℤ
  isPublic : Bool
  createdAt : ℤ
  finishedAt : Option ℤ
  progresses : List ProgressRow
deriving DecidableEq, Repr

/-- `Goal.get_current_value` (`models.py` lines 91-92):
`sum(p.value for p in self.progresses.all())`. -/
def Goal.get_current_value (g : Goal) : ℚ :=
  (g.progresses.map (fun p => p.value)).sum

/-- `Goal.is_completed` (`models.py` lines 98-99):
`self.get_current_value() >= self.target_value`. -/
def Goal.is_completed (g : Goal) : Bool :=
  g.targetValue ≤ g.get_current_value

/-- `Goal.is_overdue` (`models.py` lines 101-102):
`self.deadline is not None and self.deadline < now().date() and not self.is_completed()`. -/
def Goal.is_overdue (g : Goal) (today : ℤ) : Bool :=
  match g.deadline with
  | none => false
  | some d => d < today && !g.is_completed

/-- `Goal.status` (`models.py` lines 104-111): `completed` if completed,
else `overdue` if overdue, else `active`. -/
def Goal.status (g : Goal) (today : ℤ) : String :=
  if g.is_completed then "completed"
  else if g.is_overdue today then "overdue"
  else "active"

/-- `Goal.progress_percentage` (`models.py` lines 113-117):
`0` when `target_value == 0`, else `min(100, (total / target_value) * 100)`
where `total = get_current_value()`. -/
def Goal.progress_percentage (g : Goal) : ℚ :=
  let total := g.get_current_value
  if g.targetValue = 0 then 0
  else min 100 ((total / g.targetValue) * 100)

/-! ## Service layer: single-goal status and percentage (`services.py`) -/

/-- `goal_is_completed` (`services.py` lines 19-24):
`goal.get_current_value() >= goal.target_value`. -/
def goal_is_completed (g : Goal) : Bool :=
  g.targetValue ≤ g.get_current_value

/-- `goal_is_overdue` (`services.py` lines 27-34). -/
def goal_is_overdue (g : Goal) (today : ℤ) : Bool :=
  match g.deadline with
  | none => false
  | some d => d < today && !goal_is_completed g

/-- Python `hasattr(goal, 'current_value')` in `goal_get_status` /
`goal_progress_percentage`: the `Goal` model declares a `current_value`
field (`models.py` line 78), so the attribute exists on every instance. -/
def goal_has_current_value_attr (_g : Goal) : Bool := true

/-- Python `goal.current_value is not None`, negated: the stored
`current_value` column is `null=False` (a plain `FloatField(default=0)`),
so it is never `None`. -/
def goal_current_value_is_none (_g : Goal) : Bool := false

/-- `goal_get_status` (`services.py` lines 37-56): if the instance has a
non-`None` `current_value` attribute, compare that value against
`target_value` and the deadline against today; otherwise fall back to the
per-row computation. -/
def goal_get_status (g : Goal) (today : ℤ) : String :=
  if goal_has_current_value_attr g && !goal_current_value_is_none g then
    if g.targetValue ≤ g.currentValue then "completed"
    else
      match g.deadline with
      | some d => if d < today then "overdue" else "active"
      | none => "active"
  else
    if goal_is_completed g then "completed"
    else if goal_is_overdue g today then "overdue"
    else "active"

/-- `goal_progress_percentage` (`services.py` lines 59-72): `total` is the
`current_value` attribute when present and non-`None` (`total = goal.current_value or 0`,
the identity on a non-`None` float that is `0` when falsy), else the sum of
progress rows; then `0` when `target_value == 0`, else
`min(100, (total / target_value) * 100)`. -/
def goal_progress_percentage (g : Goal) : ℚ :=
  let total :=
    if goal_has_current_value_attr g && !goal_current_value_is_none g then
      if g.currentValue = 0 then 0 else g.currentValue
    else g.get_current_value
  if g.targetValue = 0 then 0
  else min 100 ((total / g.targetValue) * 100)

/-! ## Progress recorder (`services.py` lines 79-132, `models.py` `Progress.Meta`)

The `Progress` table carries a database uniqueness constraint on
`(user, goal, date)` (`models.py` lines 144-147).  `progress_insert` models
a bare `INSERT`: it fails with a `ConstraintViolation` when a row with the
same key already exists.  `progress_create_or_update` models
`Progress.objects.get_or_create(...)` followed by `progress.value = value;
progress.save()` on the existing-row branch. -/

/-- The uniqueness key of `Progress.Meta`: `fields=['user', 'goal', 'date']`. -/
def progress_key_match (u g : ℕ) (d : ℤ) (r : ProgressRow) : Bool :=
  r.user == u && r.goalId == g && r.date == d

/-- `Progress.objects.filter(user=u, goal=g, date=d).first()`. -/
def progress_find (db : List ProgressRow) (u g : ℕ) (d : ℤ) : Option ProgressRow :=
  db.find? (progress_key_match u g d)

/-- A bare `INSERT` into `Progress`: the database rejects a duplicate of
the `(user, goal, date)` key with a constraint violation. -/
def progress_insert (db : List ProgressRow) (row : ProgressRow) :
    Except String (List ProgressRow) :=
  if (progress_find db row.user row.goalId row.date).isSome then
    Except.error "ConstraintViolation: unique_daily_progress"
  else
    Except.ok (db ++ [row])

/-- `UPDATE progress SET value = v WHERE user = u AND goal = g AND date = d`
(the effect of `progress.value = value; progress.save()`). -/
def progress_update_value (db : List ProgressRow) (u g : ℕ) (d : ℤ) (v : ℚ) :
    List ProgressRow :=
  db.map (fun r => if progress_key_match u g d r then { r with value := v } else r)

/-- `progress_create_or_update` (`services.py` lines 79-120):
`get_or_create` on the `(user, goal, date)` key with `defaults={"value": value}`;
when the row already exists, overwrite its `value` and save.  Returns the
resulting database together with `(progress, created)`. -/
def progress_create_or_update (db : List ProgressRow) (u g : ℕ) (d : ℤ) (v : ℚ) :
    Except String (List ProgressRow × ProgressRow × Bool) :=
  match progress_find db u g d with
  | some r =>
      Except.ok (progress_update_value db u g d v, { r with value := v }, false)
  | none =>
      match progress_insert db { user := u, goalId := g, date := d, value := v } with
      | Except.ok db2 =>
          Except.ok (db2, { user := u, goalId := g, date := d, value := v }, true)
      | Except.error e => Except.error e

/-- `Progress.objects.filter(goal=goal).count()`. -/
def progress_count_for_goal (db : List ProgressRow) (g : ℕ) : ℕ :=
  (db.filter (fun r => r.goalId == g)).length

/-- The table invariant enforced by `unique_daily_progress`: at most one
row per `(user, goal, date)` triple. -/
def atMostOnePerKey (db : List ProgressRow) : Prop :=
  ∀ u g d, (db.filter (progress_key_match u g d)).length ≤ 1

/-- `progress_check_goal_completion` (`services.py` lines 123-132): when the
goal just reached its target and `finished_at` is unset, stamp
`finished_at = now()` and save that one field.  Returns the updated goal and
the function's boolean result; a database write happens exactly when that
boolean is `true`. -/
def progress_check_goal_completion (g : Goal) (nowT : ℤ) : Goal × Bool :=
  if goal_is_completed g && g.finishedAt.isNone then
    ({ g with finishedAt := some nowT }, true)
  else
    (g, false)

/-- The inline completion check of the `add_progress` view
(`views.py` lines 193-198): whenever `goal.get_current_value() >= goal.target_value`,
assign `goal.finished_at = now()` and save — with no check that
`finished_at` is still unset.  (The view also sets a transient
`goal.completed` attribute that is not a column of the `Goal` model.) -/
def add_progress_completion_check (g : Goal) (nowT : ℤ) : Goal :=
  if g.targetValue ≤ g.get_current_value then
    { g with finishedAt := some nowT }
  else
    g

/-! ## Query/filter layer (`services.py` lines 139-221)

`goal_list_for_user` / `goal_list_public` annotate each goal with
`current_value=Sum('progresses__value')` and a `db_status` computed by a SQL
`CASE`.  SQL `SUM` over an empty set of joined rows is `NULL`, and a
comparison against `NULL` is *unknown*, which a `CASE ... WHEN` treats the
same as false.  The `Option ℚ` below is that SQL value (`none` = `NULL`). -/

/-- SQL aggregate `Sum('progresses__value')` for one goal: `NULL` when the
goal has no progress rows, else the sum. -/
def sql_sum_progress (db : List ProgressRow) (goalId : ℕ) : Option ℚ :=
  let vs := (db.filter (fun r => r.goalId == goalId)).map (fun r => r.value)
  if vs.isEmpty then none else some vs.sum

/-- SQL `x >= t` under three-valued logic, as consumed by `CASE WHEN`
(only `TRUE` selects the branch; `NULL` does not). -/
def sql_ge (x : Option ℚ) (t : ℚ) : Bool :=
  match x with
  | none => false
  | some v => t ≤ v

/-- SQL `x < t` under three-valued logic, as consumed by `CASE WHEN`. -/
def sql_lt (x : Option ℚ) (t : ℚ) : Bool :=
  match x with
  | none => false
  | some v => v < t

/-- SQL `deadline < today` under three-valued logic (`deadline` may be `NULL`). -/
def sql_deadline_lt (deadline : Option ℤ) (today : ℤ) : Bool :=
  match deadline with
  | none => false
  | some d => d < today

/-- The `db_status` annotation of `goal_list_for_user` / `goal_list_public`
(`services.py` lines 166-174 and 202-210): `CASE WHEN current_value >= target_value
THEN 'completed' WHEN deadline < today AND current_value < target_value THEN
'overdue' ELSE 'active' END`. -/
def sql_db_status (sumOpt : Option ℚ) (target : ℚ) (deadline : Option ℤ)
    (today : ℤ) : String :=
  if sql_ge sumOpt target then "completed"
  else if sql_deadline_lt deadline today && sql_lt sumOpt target then "overdue"
  else "active"

/-- A goal as returned by the annotated querysets: the row plus the
`current_value` and `db_status` annotations. -/
structure AnnotatedGoal where
  goal : Goal
  currentValueAnn : Option ℚ
  dbStatus : String
deriving DecidableEq, Repr

/-- Annotate one goal the way the querysets do. -/
def annotate_goal (db : List ProgressRow) (g : Goal) (today : ℤ) : AnnotatedGoal :=
  let s := sql_sum_progress db g.id
  { goal := g, currentValueAnn := s
    dbStatus := sql_db_status s g.targetValue g.deadline today }

/-- `goal_list_for_user` (`services.py` lines 139-185): the user's goals,
annotated, then filtered on `db_status` when `status_filter` is one of
`completed` / `overdue` / `active` (any other value applies no filter). -/
def goal_list_for_user (goals : List Goal) (db : List ProgressRow) (u : ℕ)
    (statusFilter : Option String) (today : ℤ) : List AnnotatedGoal :=
  let base := (goals.filter (fun g => g.user == u)).map
    (fun g => annotate_goal db g today)
  match statusFilter with
  | some "completed" => base.filter (fun a => a.dbStatus == "completed")
  | some "overdue" => base.filter (fun a => a.dbStatus == "overdue")
  | some "active" => base.filter (fun a => a.dbStatus == "active")
  | _ => base

/-- `goal_list_public` (`services.py` lines 188-221): the public goals,
annotated the same way, filtered on `db_status` (default filter `active`). -/
def goal_list_public (goals : List Goal) (db : List ProgressRow)
    (statusFilter : String) (today : ℤ) : List AnnotatedGoal :=
  let base := (goals.filter (fun g => g.isPublic)).map
    (fun g => annotate_goal db g today)
  if statusFilter == "active" then base.filter (fun a => a.dbStatus == "active")
  else if statusFilter == "completed" then base.filter (fun a => a.dbStatus == "completed")
  else if statusFilter == "overdue" then base.filter (fun a => a.dbStatus == "overdue")
  else base

/-! ## Chart aggregator (`services.py` lines 279-375, `views.py` lines 263-274)

Only the pieces the verified properties touch are embedded: the series
start/end dates, the inclusive span and the grouping choice
(lines 290-315), the daily generator `_generate_daily_chart_data`
(lines 347-375), and the `needed_per_day` pace computation
(lines 325-335, duplicated at `views.py` lines 263-274).  Bucket labels are
kept as day numbers rather than `strftime` strings. -/

/-- Series start date (`services.py` lines 293-296): the date of the
earliest progress row, or the goal's creation date when there is none. -/
def chart_start_date (g : Goal) : ℤ :=
  match (g.progresses.map (fun p => p.date)).min? with
  | some d => d
  | none => g.createdAt

/-- Series end date (`services.py` line 298): `goal.deadline or now().date()`. -/
def chart_end_date (g : Goal) (today : ℤ) : ℤ :=
  match g.deadline with
  | some d => d
  | none => today

/-- `total_days = (end_date - start_date).days + 1` (`services.py` line 302). -/
def chart_total_days (startDate stopDate : ℤ) : ℤ :=
  (stopDate - startDate) + 1

/-- The grouping dispatch (`services.py` lines 307-315), combined with the
constant `grouping` tag each generator puts in its result: `daily` when
`total_days <= 60`, `weekly` when `total_days <= 365`, else `monthly`. -/
def chart_grouping (totalDays : ℤ) : String :=
  if totalDays ≤ 60 then "daily"
  else if totalDays ≤ 365 then "weekly"
  else "monthly"

/-- The `grouping` field of `goal_get_chart_data(goal)` as a function of the
goal and of today. -/
def goal_get_chart_data_grouping (g : Goal) (today : ℤ) : String :=
  chart_grouping (chart_total_days (chart_start_date g) (chart_end_date g today))

/-- `progress_map = {p.date: p.value for p in progress_history}`
(`services.py` line 305) read with `.get(d, 0)`: the value recorded on day
`d`, defaulting to `0`.  With duplicate dates the dict keeps the last
entry, hence the reversed search. -/
def progress_map_get (ps : List ProgressRow) (d : ℤ) : ℚ :=
  match ps.reverse.find? (fun p => p.date == d) with
  | some p => p.value
  | none => 0

/-- The inclusive day range `[start, stop]` built by the `while` loop at
`services.py` lines 350-354. -/
def date_range (startDate stopDate : ℤ) : List ℤ :=
  (List.range (stopDate - startDate + 1).toNat).map (fun i => startDate + i)

/-- The per-day loop of `_generate_daily_chart_data` (`services.py` lines
356-368): for each day up to today, the day's value and the running
cumulative total; for days after today, `None` for both. -/
def daily_points (dates : List ℤ) (today : ℤ) (ps : List ProgressRow)
    (running : ℚ) : List (Option ℚ) × List (Option ℚ) :=
  match dates with
  | [] => ([], [])
  | d :: rest =>
    if d ≤ today then
      let v := progress_map_get ps d
      let tail := daily_points rest today ps (running + v)
      (some v :: tail.1, some (running + v) :: tail.2)
    else
      let tail := daily_points rest today ps running
      (none :: tail.1, none :: tail.2)

/-- The result record of the chart generators (dates kept as day numbers). -/
structure ChartData where
  dates : List ℤ
  values : List (Option ℚ)
  cumulative : List (Option ℚ)
  grouping : String
deriving DecidableEq, Repr

/-- `_generate_daily_chart_data` (`services.py` lines 347-375). -/
def generate_daily_chart_data (startDate stopDate today : ℤ)
    (ps : List ProgressRow) : ChartData :=
  let allDates := date_range startDate stopDate
  let pts := daily_points allDates today ps 0
  { dates := allDates, values := pts.1, cumulative := pts.2, grouping := "daily" }

/-- `goal_get_chart_data` restricted to the daily branch it takes whenever
`total_days <= 60` (`services.py` lines 307-309). -/
def goal_get_daily_chart (g : Goal) (today : ℤ) : ChartData :=
  generate_daily_chart_data (chart_start_date g) (chart_end_date g today)
    today g.progresses

/-- The `needed_per_day` computation (`services.py` lines 325-335, identical
at `views.py` lines 263-274): `days_remaining = (deadline - today).days + 1`
when a deadline exists and `today <= deadline`, else `0`; then
`max((target - total) / days_remaining, 0)` when `days_remaining > 0`, else
the full deficit `target - total` when `target > total`, else `0`. -/
def needed_per_day (target total : ℚ) (deadline : Option ℤ) (today : ℤ) : ℚ :=
  let daysRemaining : ℤ :=
    match deadline with
    | some dl => if today ≤ dl then (dl - today) + 1 else 0
    | none => 0
  if 0 < daysRemaining then
    max ((target - total) / (daysRemaining : ℚ)) 0
  else if total < target then
    target - total
  else 0

/-! ## Concrete instances used by the verification

These are inputs for the end-to-end scenarios and counterexamples; each
matches the shape of data the application can store. -/

/-- Spec scenario B: target 10, deadline yesterday (day 99 with today =
day 100), progress sum 10. -/
def scenarioBGoal : Goal :=
  { id := 1, user := 1, targetValue := 10, currentValue := 0,
    deadline := some 99, isPublic := true, createdAt := 0, finishedAt := none,
    progresses := [{ user := 1, goalId := 1, date := 50, value := 10 }] }

/-- A goal whose single progress entry is negative: target 10, one entry of
value `-5`. -/
def negativeProgressGoal : Goal :=
  { id := 2, user := 1, targetValue := 10, currentValue := 0,
    deadline := none, isPublic := true, createdAt := 0, finishedAt := none,
    progresses := [{ user := 1, goalId := 2, date := 1, value := -5 }] }

/-- A goal with no progress rows and a deadline already passed (deadline
day 9, today day 10), owned by user 7. -/
def noProgressOverdueGoal : Goal :=
  { id := 3, user := 7, targetValue := 10, currentValue := 0,
    deadline := some 9, isPublic := true, createdAt := 0, finishedAt := none,
    progresses := [] }

/-- Spec scenario E: a goal spanning days 1..10 with progress entries only
on days 1, 3, 5 of values 2, 4, 6, no deadline. -/
def scenarioEGoal : Goal :=
  { id := 4, user := 1, targetValue := 100, currentValue := 0,
    deadline := none, isPublic := true, createdAt := 1, finishedAt := none,
    progresses := [{ user := 1, goalId := 4, date := 1, value := 2 },
                   { user := 1, goalId := 4, date := 3, value := 4 },
                   { user := 1, goalId := 4, date := 5, value := 6 }] }

/-- An already-completed goal: progress sum 10 = target, with
`finished_at` already stamped at time 5. -/
def finishedGoal : Goal :=
  { id := 5, user := 1, targetValue := 10, currentValue := 0,
    deadline := none, isPublic := true, createdAt := 0, finishedAt := some 5,
    progresses := [{ user := 1, goalId := 5, date := 1, value := 10 }] }

/-- A goal whose stored fields match `statusTwinB` while its progress rows
differ (no rows here). -/
def statusTwinA : Goal :=
  { id := 6, user := 1, targetValue := 10, currentValue := 3,
    deadline := some 20, isPublic := true, createdAt := 0, finishedAt := none,
    progresses := [] }

/-- Same stored `current_value`, `target_value` and `deadline` as
`statusTwinA`, but with a large progress row. -/
def statusTwinB : Goal :=
  { id := 7, user := 2, targetValue := 10, currentValue := 3,
    deadline := some 20, isPublic := true, createdAt := 0, finishedAt := none,
    progresses := [{ user := 2, goalId := 7, date := 1, value := 999 }] }

/-- A half-done goal: target 100, progress sum 50. -/
def halfDoneGoal : Goal :=
  { id := 8, user := 1, targetValue := 100, currentValue := 0,
    deadline := some 40, isPublic := true, createdAt := 0, finishedAt := none,
    progresses := [{ user := 1, goalId := 8, date := 2, value := 50 }] }

/-! ## Status engine: verified properties -/

/-- C1: for every goal, given its target, deadline and progress sum, the
derived status is exactly one of completed / overdue / active, with
completed taking precedence: `completed` iff the sum reaches the target;
`overdue` iff not completed, the deadline is set and strictly before
today; `active` otherwise. -/
theorem goal_status_trichotomy (g : Goal) (today : ℤ) :
    (Goal.status g today = "completed" ∨ Goal.status g today = "overdue" ∨
      Goal.status g today = "active") ∧
    (Goal.status g today = "completed" ↔ g.targetValue ≤ g.get_current_value) ∧
    (Goal.status g today = "overdue" ↔
      (¬ g.targetValue ≤ g.get_current_value ∧
        ∃ d, g.deadline = some d ∧ d < today)) ∧
    (Goal.status g today = "active" ↔
      (¬ g.targetValue ≤ g.get_current_value ∧
        ∀ d, g.deadline = some d → ¬ d < today)) := by
  by_cases hc : g.targetValue ≤ g.get_current_value
  · simp [Goal.status, Goal.is_completed, hc]
  · cases hd : g.deadline with
    | none => simp [Goal.status, Goal.is_completed, Goal.is_overdue, hc, hd]
    | some d =>
      by_cases hlt : d < today
      · simp [Goal.status, Goal.is_completed, Goal.is_overdue, hc, hd, hlt]
      · simp [Goal.status, Goal.is_completed, Goal.is_overdue, hc, hd, hlt]
        omega

/-- Witness for C1, spec scenario B: target 10, deadline yesterday,
progress sum 10 — the status is `completed`, not `overdue`. -/
theorem goal_status_trichotomy_witness :
    Goal.status scenarioBGoal 100 = "completed" :=
  (goal_status_trichotomy scenarioBGoal 100).2.1.mpr
    (by norm_num [scenarioBGoal, Goal.get_current_value])

/-- C3: for a positive target, `progress_percentage` is
`min(100, current / target * 100)` with `current` the sum of the goal's
progress entries; for a zero target it is `0` (the division is never
performed, so no division-by-zero can be raised). -/
theorem goal_progress_percentage_formula (g : Goal) :
    (0 < g.targetValue →
      Goal.progress_percentage g =
        min 100 (g.get_current_value / g.targetValue * 100)) ∧
    (g.targetValue = 0 → Goal.progress_percentage g = 0) := by
  constructor
  · intro h
    simp [Goal.progress_percentage, ne_of_gt h]
  · intro h
    simp [Goal.progress_percentage, h]

/-- Witness for C3 at a concrete goal: target 100, progress sum 50 gives
`min 100 50 = 50` percent. -/
theorem goal_progress_percentage_formula_witness :
    Goal.progress_percentage halfDoneGoal =
      min 100 (Goal.get_current_value halfDoneGoal / halfDoneGoal.targetValue * 100) :=
  (goal_progress_percentage_formula halfDoneGoal).1 (by norm_num [halfDoneGoal])

/-- C4 fails on the code: a goal with target 10 whose only progress entry
has value `-5` gets `progress_percentage = -50`, outside `[0, 100]` — the
code caps at 100 but never clamps below at 0. -/
theorem progress_percentage_below_zero :
    Goal.progress_percentage negativeProgressGoal = -50 ∧
    ¬ (0 ≤ Goal.progress_percentage negativeProgressGoal ∧
        Goal.progress_percentage negativeProgressGoal ≤ 100) := by
  have h : Goal.progress_percentage negativeProgressGoal = -50 := by
    norm_num [Goal.progress_percentage, Goal.get_current_value, negativeProgressGoal]
  refine ⟨h, ?_⟩
  rw [h]
  norm_num

/-- C4 amended: `progress_percentage` never exceeds 100, and it lies in
`[0, 100]` whenever the stored target is nonnegative and the progress sum
is nonnegative (in particular when every entry is nonnegative); a negative
progress sum can push it below 0. -/
theorem progress_percentage_bounds (g : Goal) :
    Goal.progress_percentage g ≤ 100 ∧
    (0 ≤ g.targetValue → 0 ≤ g.get_current_value →
      0 ≤ Goal.progress_percentage g) := by
  unfold Goal.progress_percentage
  by_cases h : g.targetValue = 0
  · simp [h]
  · simp only [h, if_false]
    constructor
    · exact min_le_left _ _
    · intro ht htot
      have hpos : 0 < g.targetValue := lt_of_le_of_ne ht (Ne.symm h)
      exact le_min (by norm_num)
        (mul_nonneg (div_nonneg htot hpos.le) (by norm_num))

/-- Witness for C4's amended bound at a concrete goal with nonnegative
target and entries. -/
theorem progress_percentage_bounds_witness :
    Goal.progress_percentage halfDoneGoal ≤ 100 ∧
    0 ≤ Goal.progress_percentage halfDoneGoal :=
  ⟨(progress_percentage_bounds halfDoneGoal).1,
    (progress_percentage_bounds halfDoneGoal).2
      (by norm_num [halfDoneGoal])
      (by norm_num [halfDoneGoal, Goal.get_current_value])⟩

/-- C10: because the `Goal` model stores a non-null `current_value` column,
the `hasattr(goal, 'current_value') and goal.current_value is not None`
guard in the service layer is always taken, so `goal_get_status` and
`goal_progress_percentage` on an un-annotated goal depend only on the
stored fields: two goals agreeing on `current_value`, `target_value` and
`deadline` get identical results however their progress rows differ. -/
theorem service_status_ignores_progress_rows (g1 g2 : Goal) (today : ℤ)
    (hcv : g1.currentValue = g2.currentValue)
    (ht : g1.targetValue = g2.targetValue)
    (hd : g1.deadline = g2.deadline) :
    goal_get_status g1 today = goal_get_status g2 today ∧
    goal_progress_percentage g1 = goal_progress_percentage g2 := by
  constructor
  · simp [goal_get_status, goal_has_current_value_attr,
      goal_current_value_is_none, hcv, ht, hd]
  · simp [goal_progress_percentage, goal_has_current_value_attr,
      goal_current_value_is_none, hcv, ht]

/-- Witness for C10: `statusTwinA` (no progress rows) and `statusTwinB`
(one row of value 999, enough to complete the goal by summation) share the
stored fields, and the service layer gives them the same status and
percentage. -/
theorem service_status_ignores_progress_rows_witness :
    goal_get_status statusTwinA 30 = goal_get_status statusTwinB 30 ∧
    goal_progress_percentage statusTwinA = goal_progress_percentage statusTwinB :=
  service_status_ignores_progress_rows statusTwinA statusTwinB 30 rfl rfl rfl

/-! ## Progress recorder: completion latch -/

/-- C5 amended, the service-layer check `progress_check_goal_completion`:
`finished_at` is written only when the goal is complete and `finished_at`
is unset; a goal whose `finished_at` is already set is returned unchanged
with no write; and immediately re-running the check after any run performs
no write and changes nothing. -/
theorem progress_check_goal_completion_latch (g : Goal) (n1 n2 : ℤ) :
    (∀ t, g.finishedAt = some t →
      progress_check_goal_completion g n1 = (g, false)) ∧
    (g.finishedAt = none → goal_is_completed g = true →
      progress_check_goal_completion g n1 = ({ g with finishedAt := some n1 }, true)) ∧
    progress_check_goal_completion (progress_check_goal_completion g n1).1 n2 =
      ((progress_check_goal_completion g n1).1, false) := by
  refine ⟨?_, ?_, ?_⟩
  · intro t h
    simp [progress_check_goal_completion, h]
  · intro h hc
    simp [progress_check_goal_completion, h, hc]
  · by_cases hc : g.targetValue ≤ (g.progresses.map (fun p => p.value)).sum
    · by_cases hf : g.finishedAt = none
      · simp [progress_check_goal_completion, goal_is_completed,
          Goal.get_current_value, hc, hf]
      · simp [progress_check_goal_completion, goal_is_completed,
          Goal.get_current_value, hc, Option.isNone_iff_eq_none, hf]
    · simp [progress_check_goal_completion, goal_is_completed,
        Goal.get_current_value, hc]

/-- Witness for C5's amended claim: a completed goal with `finished_at`
unset gets it stamped on the first check, and the second check is a
no-op. -/
theorem progress_check_goal_completion_latch_witness :
    progress_check_goal_completion scenarioBGoal 42 =
      ({ scenarioBGoal with finishedAt := some 42 }, true) ∧
    progress_check_goal_completion
        (progress_check_goal_completion scenarioBGoal 42).1 99 =
      ((progress_check_goal_completion scenarioBGoal 42).1, false) :=
  ⟨(progress_check_goal_completion_latch scenarioBGoal 42 99).2.1 rfl
      (by norm_num [goal_is_completed, Goal.get_current_value, scenarioBGoal]),
    (progress_check_goal_completion_latch scenarioBGoal 42 99).2.2⟩

/-- C5 fails for the other completion check in the sources: the inline
check of the `add_progress` view re-stamps `finished_at = now()` on every
invocation once the target is met, so a goal whose `finished_at` was
already set at time 5 has it overwritten to time 7 by a later call —
`finished_at` is not assigned at most once along that path. -/
theorem add_progress_rewrites_finished_at :
    finishedGoal.finishedAt = some 5 ∧
    (add_progress_completion_check finishedGoal 7).finishedAt = some 7 := by
  constructor
  · rfl
  · have h : finishedGoal.targetValue ≤ Goal.get_current_value finishedGoal := by
      norm_num [finishedGoal, Goal.get_current_value]
    simp [add_progress_completion_check, h]

/-! ## Chart aggregator: verified properties -/

/-- C7: the grouping granularity is a function of the inclusive day span
from series start to series end alone: `daily` iff the span is at most 60
days, `weekly` iff it is 61 to 365 days, `monthly` iff it exceeds 365 days;
in particular spans of 40, 200 and 400 days give daily, weekly and monthly
grouping. -/
theorem chart_grouping_by_span (g : Goal) (today : ℤ) :
    (goal_get_chart_data_grouping g today = "daily" ↔
      chart_total_days (chart_start_date g) (chart_end_date g today) ≤ 60) ∧
    (goal_get_chart_data_grouping g today = "weekly" ↔
      (60 < chart_total_days (chart_start_date g) (chart_end_date g today) ∧
        chart_total_days (chart_start_date g) (chart_end_date g today) ≤ 365)) ∧
    (goal_get_chart_data_grouping g today = "monthly" ↔
      365 < chart_total_days (chart_start_date g) (chart_end_date g today)) ∧
    chart_grouping 40 = "daily" ∧
    chart_grouping 200 = "weekly" ∧
    chart_grouping 400 = "monthly" := by
  have key : ∀ s : ℤ, (chart_grouping s = "daily" ↔ s ≤ 60) ∧
      (chart_grouping s = "weekly" ↔ (60 < s ∧ s ≤ 365)) ∧
      (chart_grouping s = "monthly" ↔ 365 < s) := by
    intro s
    unfold chart_grouping
    by_cases h1 : s ≤ 60
    · simp [h1]
      omega
    · by_cases h2 : s ≤ 365
      · simp [h1, h2]
        omega
      · simp [h1, h2]
        omega
  exact ⟨(key _).1, (key _).2.1, (key _).2.2, rfl, rfl, rfl⟩

/-- Witness for C7: the 10-day scenario-E goal falls in the daily band. -/
theorem chart_grouping_by_span_witness :
    goal_get_chart_data_grouping scenarioEGoal 10 = "daily" :=
  (chart_grouping_by_span scenarioEGoal 10).1.mpr (by decide)

/-- C8 fails on the code: for the scenario-E goal (progress 2, 4, 6 on
days 1, 3, 5, today = day 10, no deadline) the cumulative series the chart
produces is the running sum `[2,2,6,6,12,…]`, not the claimed
`[2,2,4,4,6,6,6,6,6,6]`. -/
theorem chart_scenario_e_counterexample :
    (goal_get_daily_chart scenarioEGoal 10).cumulative ≠
      [some 2, some 2, some 4, some 4, some 6, some 6, some 6, some 6,
        some 6, some 6] := by
  have hs : chart_start_date scenarioEGoal = 1 := rfl
  have he : chart_end_date scenarioEGoal 10 = 10 := rfl
  have hd : date_range 1 10 = [1,2,3,4,5,6,7,8,9,10] := rfl
  have hm1 : progress_map_get scenarioEGoal.progresses 1 = 2 := rfl
  have hm2 : progress_map_get scenarioEGoal.progresses 2 = 0 := rfl
  have hm3 : progress_map_get scenarioEGoal.progresses 3 = 4 := rfl
  have hm4 : progress_map_get scenarioEGoal.progresses 4 = 0 := rfl
  have hm5 : progress_map_get scenarioEGoal.progresses 5 = 6 := rfl
  have hm6 : progress_map_get scenarioEGoal.progresses 6 = 0 := rfl
  have hm7 : progress_map_get scenarioEGoal.progresses 7 = 0 := rfl
  have hm8 : progress_map_get scenarioEGoal.progresses 8 = 0 := rfl
  have hm9 : progress_map_get scenarioEGoal.progresses 9 = 0 := rfl
  have hm10 : progress_map_get scenarioEGoal.progresses 10 = 0 := rfl
  norm_num [goal_get_daily_chart, generate_daily_chart_data, hs, he, hd,
    daily_points, hm1, hm2, hm3, hm4, hm5, hm6, hm7, hm8, hm9, hm10]

/-- C8 amended: the scenario-E chart uses daily grouping, its per-day
values are `[2,0,4,0,6,0,0,0,0,0]`, and its cumulative series is the
running sum `[2,2,6,6,12,12,12,12,12,12]`. -/
theorem chart_scenario_e_series :
    goal_get_chart_data_grouping scenarioEGoal 10 = "daily" ∧
    (goal_get_daily_chart scenarioEGoal 10).values =
      [some 2, some 0, some 4, some 0, some 6, some 0, some 0, some 0,
        some 0, some 0] ∧
    (goal_get_daily_chart scenarioEGoal 10).cumulative =
      [some 2, some 2, some 6, some 6, some 12, some 12, some 12, some 12,
        some 12, some 12] := by
  have hs : chart_start_date scenarioEGoal = 1 := rfl
  have he : chart_end_date scenarioEGoal 10 = 10 := rfl
  have hd : date_range 1 10 = [1,2,3,4,5,6,7,8,9,10] := rfl
  have hm1 : progress_map_get scenarioEGoal.progresses 1 = 2 := rfl
  have hm2 : progress_map_get scenarioEGoal.progresses 2 = 0 := rfl
  have hm3 : progress_map_get scenarioEGoal.progresses 3 = 4 := rfl
  have hm4 : progress_map_get scenarioEGoal.progresses 4 = 0 := rfl
  have hm5 : progress_map_get scenarioEGoal.progresses 5 = 6 := rfl
  have hm6 : progress_map_get scenarioEGoal.progresses 6 = 0 := rfl
  have hm7 : progress_map_get scenarioEGoal.progresses 7 = 0 := rfl
  have hm8 : progress_map_get scenarioEGoal.progresses 8 = 0 := rfl
  have hm9 : progress_map_get scenarioEGoal.progresses 9 = 0 := rfl
  have hm10 : progress_map_get scenarioEGoal.progresses 10 = 0 := rfl
  refine ⟨rfl, ?_, ?_⟩
  · simp [goal_get_daily_chart, generate_daily_chart_data, hs, he, hd,
      daily_points, hm1, hm2, hm3, hm4, hm5, hm6, hm7, hm8, hm9, hm10]
  · norm_num [goal_get_daily_chart, generate_daily_chart_data, hs, he, hd,
      daily_points, hm1, hm2, hm3, hm4, hm5, hm6, hm7, hm8, hm9, hm10]

/-- C9 fails on the code: a goal with no deadline, target 10 and progress
sum 4 gets `needed_per_day = 6` (the full deficit), not the claimed 0 —
the `elif goal.target_value > total_progress` branch does not distinguish
"deadline passed" from "no deadline". -/
theorem needed_per_day_no_deadline_counterexample :
    needed_per_day 10 4 none 10 = 6 ∧ needed_per_day 10 4 none 10 ≠ 0 := by
  have h : needed_per_day 10 4 none 10 = 6 := by norm_num [needed_per_day]
  refine ⟨h, ?_⟩
  rw [h]
  norm_num

/-- C9 amended: `needed_per_day` is `max(0, deficit / days_remaining)` with
`days_remaining = deadline - today + 1` when the deadline is on or after
today; it is the full deficit `target - total` when the target is not yet
reached and the deadline has passed **or no deadline is set**; and it is 0
when the target is reached and no future deadline exists. -/
theorem needed_per_day_formula (target total : ℚ) (deadline : Option ℤ)
    (today dl : ℤ) :
    (deadline = some dl → today ≤ dl →
      needed_per_day target total deadline today =
        max ((target - total) / ((dl - today + 1 : ℤ) : ℚ)) 0) ∧
    (deadline = some dl → dl < today → total < target →
      needed_per_day target total deadline today = target - total) ∧
    (deadline = none → total < target →
      needed_per_day target total deadline today = target - total) ∧
    (deadline = some dl → dl < today → target ≤ total →
      needed_per_day target total deadline today = 0) ∧
    (deadline = none → target ≤ total →
      needed_per_day target total deadline today = 0) := by
  refine ⟨?_, ?_, ?_, ?_, ?_⟩
  · intro h h2
    have hpos : (0:ℤ) < dl - today + 1 := by omega
    simp [needed_per_day, h, h2, hpos]
  · intro h h2 h3
    have hnle : ¬ today ≤ dl := by omega
    simp [needed_per_day, h, hnle, h3]
  · intro h h2
    simp [needed_per_day, h, h2]
  · intro h h2 h3
    have hnle : ¬ today ≤ dl := by omega
    simp [needed_per_day, h, hnle, not_lt.mpr h3]
  · intro h h2
    simp [needed_per_day, h, not_lt.mpr h2]

/-- Witness for C9's amended claim: with target 10, progress 4, deadline
day 12 and today day 10 there are 3 inclusive days left, and
`needed_per_day = max((10-4)/3, 0) = 2`; with the deadline passed it is the
lump deficit 6; with the target met it is 0. -/
theorem needed_per_day_formula_witness :
    needed_per_day 10 4 (some 12) 10 =
      max ((10 - 4) / ((12 - 10 + 1 : ℤ) : ℚ)) 0 ∧
    needed_per_day 10 4 (some 9) 10 = 10 - 4 ∧
    needed_per_day 10 12 (some 9) 10 = 0 :=
  ⟨(needed_per_day_formula 10 4 (some 12) 10 12).1 rfl (by norm_num),
    (needed_per_day_formula 10 4 (some 9) 10 9).2.1 rfl (by norm_num) (by norm_num),
    (needed_per_day_formula 10 12 (some 9) 10 9).2.2.2.1 rfl (by norm_num) (by norm_num)⟩

/-! ## Query/filter layer: the NULL-sum misclassification (C6) -/

/-- C6 fails on the code: user 7's goal with target 10, deadline day 9
(yesterday at today = day 10) and no progress rows is annotated with
`current_value = NULL` (SQL `SUM` over zero rows), both `CASE` conditions
evaluate to unknown, and the goal is classified `active`: the `overdue`
filter omits it and the `active` filter returns it, while the single-goal
`goal_get_status` calls the very same goal `overdue`.  The public feed
behaves identically. -/
theorem goal_list_null_sum_misclassifies :
    goal_list_for_user [noProgressOverdueGoal] [] 7 (some "overdue") 10 = [] ∧
    goal_list_for_user [noProgressOverdueGoal] [] 7 (some "active") 10 =
      [annotate_goal [] noProgressOverdueGoal 10] ∧
    goal_list_public [noProgressOverdueGoal] [] "overdue" 10 = [] ∧
    (annotate_goal [] noProgressOverdueGoal 10).currentValueAnn = none ∧
    (annotate_goal [] noProgressOverdueGoal 10).dbStatus = "active" ∧
    goal_get_status noProgressOverdueGoal 10 = "overdue" :=
  ⟨rfl, rfl, rfl, rfl, rfl, rfl⟩

/-! ## Progress recorder: uniqueness and upsert behaviour (C2)

Helper lemmas about the list-of-rows table. -/

/-- Overwriting `value` does not change a row's `(user, goal, date)` key. -/
theorem progress_key_match_set_value (u g : ℕ) (d : ℤ) (v : ℚ)
    (r : ProgressRow) :
    progress_key_match u g d { r with value := v } = progress_key_match u g d r :=
  rfl

/-- Looking up a key after updating that key's value finds the updated
row. -/
theorem progress_find_update_same (db : List ProgressRow) (u g : ℕ) (d : ℤ)
    (v : ℚ) :
    progress_find (progress_update_value db u g d v) u g d =
      (progress_find db u g d).map (fun r => { r with value := v }) := by
  induction db with
  | nil => rfl
  | cons a l ih =>
    by_cases h : progress_key_match u g d a
    · simp [progress_find, progress_update_value, List.find?, h,
        progress_key_match_set_value]
    · simp only [progress_find, progress_update_value, List.map_cons,
        List.find?, h, if_neg, Bool.false_eq_true, if_false,
        progress_key_match_set_value]
      simpa [progress_find, progress_update_value] using ih

/-- A value update never changes the length of any filter that ignores
`value`. -/
theorem filter_update_length (db : List ProgressRow) (u g : ℕ) (d : ℤ)
    (v : ℚ) (p : ProgressRow → Bool)
    (hp : ∀ r, p { r with value := v } = p r) :
    ((progress_update_value db u g d v).filter p).length =
      (db.filter p).length := by
  induction db with
  | nil => rfl
  | cons a l ih =>
    by_cases h : progress_key_match u g d a
    · by_cases hpa : p a
      · simp [progress_update_value, List.filter_cons, h, hp a, hpa] at ih ⊢
        simpa [progress_update_value] using ih
      · simp [progress_update_value, List.filter_cons, h, hp a, hpa] at ih ⊢
        simpa [progress_update_value] using ih
    · by_cases hpa : p a
      · simp [progress_update_value, List.filter_cons, h, hpa] at ih ⊢
        simpa [progress_update_value] using ih
      · simp [progress_update_value, List.filter_cons, h, hpa] at ih ⊢
        simpa [progress_update_value] using ih

/-- A value update preserves the at-most-one-row-per-key invariant. -/
theorem atMostOne_update (db : List ProgressRow) (u g : ℕ) (d : ℤ) (v : ℚ)
    (h : atMostOnePerKey db) :
    atMostOnePerKey (progress_update_value db u g d v) := by
  intro u' g' d'
  rw [filter_update_length db u g d v (progress_key_match u' g' d')
    (fun r => rfl)]
  exact h u' g' d'

/-- A value update preserves every per-goal row count. -/
theorem count_update (db : List ProgressRow) (u g : ℕ) (d : ℤ) (v : ℚ)
    (gid : ℕ) :
    progress_count_for_goal (progress_update_value db u g d v) gid =
      progress_count_for_goal db gid := by
  unfold progress_count_for_goal
  exact filter_update_length db u g d v (fun r => r.goalId == gid)
    (fun r => rfl)

/-- Appending a row with an absent key makes that key findable. -/
theorem progress_find_append_of_none (db : List ProgressRow) (u g : ℕ)
    (d : ℤ) (row : ProgressRow) (h : progress_find db u g d = none)
    (hrow : progress_key_match u g d row = true) :
    progress_find (db ++ [row]) u g d = some row := by
  induction db with
  | nil => simp [progress_find, List.find?, hrow]
  | cons a l ih =>
    by_cases hk : progress_key_match u g d a
    · unfold progress_find at h
      rw [List.find?_cons_of_pos _ hk] at h
      cases h
    · unfold progress_find at h ⊢
      rw [List.find?_cons_of_neg _ (by simp [hk])] at h
      rw [List.cons_append, List.find?_cons_of_neg _ (by simp [hk])]
      exact ih h

/-- Inserting a row whose key is absent preserves the
at-most-one-row-per-key invariant. -/
theorem atMostOne_append (db : List ProgressRow) (u g : ℕ) (d : ℤ) (v : ℚ)
    (h : atMostOnePerKey db)
    (hnone : progress_find db u g d = none) :
    atMostOnePerKey (db ++ [{ user := u, goalId := g, date := d, value := v }]) := by
  intro u' g' d'
  rw [List.filter_append]
  by_cases hk : progress_key_match u' g' d'
      { user := u, goalId := g, date := d, value := v }
  · have hkey := hk
    simp only [progress_key_match, Bool.and_eq_true, beq_iff_eq] at hkey
    obtain ⟨⟨hu, hg⟩, hd2⟩ := hkey
    subst hu
    subst hg
    subst hd2
    have hfil : db.filter (progress_key_match u g d) = [] := by
      rw [List.filter_eq_nil_iff]
      exact List.find?_eq_none.mp hnone
    simp [hfil, List.filter, hk]
  · simp [List.filter, hk]
    exact h u' g' d'

/-- C2: on a table satisfying the one-row-per-(user, goal, date) invariant,
the recorder always returns `ok` (no `ConstraintViolation` reaches the
caller), its `created` flag is exactly "no row existed", the invariant is
preserved, and a second call with the same triple takes the update path:
it returns `created = false`, the returned row carries the new value
(last-write-wins), the invariant still holds, and the goal's total row
count is unchanged. -/
theorem progress_create_or_update_upsert (db : List ProgressRow) (u g : ℕ)
    (d : ℤ) (v1 v2 : ℚ) (h : atMostOnePerKey db) :
    ∃ db1 r1 db2 r2,
      progress_create_or_update db u g d v1 =
        Except.ok (db1, r1, (progress_find db u g d).isNone) ∧
      atMostOnePerKey db1 ∧
      progress_create_or_update db1 u g d v2 = Except.ok (db2, r2, false) ∧
      r2.value = v2 ∧
      atMostOnePerKey db2 ∧
      progress_count_for_goal db2 g = progress_count_for_goal db1 g := by
  cases hf : progress_find db u g d with
  | some r =>
    have hf1 : progress_find (progress_update_value db u g d v1) u g d =
        some { r with value := v1 } := by
      rw [progress_find_update_same, hf]
      rfl
    refine ⟨progress_update_value db u g d v1, { r with value := v1 },
      progress_update_value (progress_update_value db u g d v1) u g d v2,
      { { r with value := v1 } with value := v2 }, ?_, ?_, ?_, rfl, ?_, ?_⟩
    · simp [progress_create_or_update, hf]
    · exact atMostOne_update db u g d v1 h
    · simp [progress_create_or_update, hf1]
    · exact atMostOne_update _ u g d v2 (atMostOne_update db u g d v1 h)
    · exact count_update _ u g d v2 g
  | none =>
    have hrowkey :
        progress_key_match u g d { user := u, goalId := g, date := d, value := v1 } = true := by
      simp [progress_key_match]
    have hins : progress_insert db { user := u, goalId := g, date := d, value := v1 } =
        Except.ok (db ++ [{ user := u, goalId := g, date := d, value := v1 }]) := by
      simp [progress_insert, hf]
    have hf1 : progress_find (db ++ [{ user := u, goalId := g, date := d, value := v1 }]) u g d =
        some { user := u, goalId := g, date := d, value := v1 } :=
      progress_find_append_of_none db u g d _ hf hrowkey
    refine ⟨db ++ [{ user := u, goalId := g, date := d, value := v1 }],
      { user := u, goalId := g, date := d, value := v1 },
      progress_update_value
        (db ++ [{ user := u, goalId := g, date := d, value := v1 }]) u g d v2,
      { user := u, goalId := g, date := d, value := v2 }, ?_, ?_, ?_, rfl, ?_, ?_⟩
    · simp [progress_create_or_update, hf, hins]
    · exact atMostOne_append db u g d v1 h hf
    · simp [progress_create_or_update, hf1]
    · exact atMostOne_update _ u g d v2 (atMostOne_append db u g d v1 h hf)
    · exact count_update _ u g d v2 g

/-- Witness for C2: recording value 50 for `(user 1, goal 1, day 5)` on an
empty table and then recording 80 for the same triple. -/
theorem progress_create_or_update_upsert_witness :
    ∃ db1 r1 db2 r2,
      progress_create_or_update [] 1 1 5 50 =
        Except.ok (db1, r1, (progress_find [] 1 1 5).isNone) ∧
      atMostOnePerKey db1 ∧
      progress_create_or_update db1 1 1 5 80 = Except.ok (db2, r2, false) ∧
      r2.value = 80 ∧
      atMostOnePerKey db2 ∧
      progress_count_for_goal db2 1 = progress_count_for_goal db1 1 :=
  progress_create_or_update_upsert [] 1 1 5 50 80
    (by intro u g d; simp [atMostOnePerKey])
